import Mathlib

/-!
FSEventWrap (src/fs_event_wrap.cc).

A shallow embedding of the filesystem-watch binding `node::FSEventWrap`:
the C++ object is a record holding `initialized_`, each method is a pure
function that returns the new object together with the calls it made to
its collaborators (libuv, `HandleWrap`, the V8 call boundary), in order.
-/

namespace node

/-! ## Values at the JavaScript call boundary -/

/-- A JavaScript value as seen through `v8::Value`: only the distinctions
the binding makes (`IsString`, `IsTrue`, `Null`, `Integer::New`) matter. -/
inductive Value where
  | undefined
  | null
  | bool (b : Bool)
  | int (n : Int)
  | str (s : String)
  | object (id : Nat)
  deriving DecidableEq, Repr

/-- Predicate `v8::Value::IsString`. -/
def Value.IsString : Value → Bool
  | .str _ => true
  | _ => false

/-- Predicate `v8::Value::IsTrue`: the value is the boolean `true` itself. -/
def Value.IsTrue : Value → Bool
  | .bool true => true
  | _ => false

/-- Indexing `args[i]` of `v8::FunctionCallbackInfo`: `undefined` past the end. -/
def argAt (args : List Value) (i : Nat) : Value :=
  args.getD i Value.undefined

/-- Conversion `String::Utf8Value path(args[0])` followed by `*path`: the text
of a string value (line 108; only reached when `args[0]->IsString()`). The
OS layer is handed the whole text. -/
def Utf8Value : Value → String
  | .str s => s
  | _ => ""

/-- The bytes `String::Utf8Value` holds for a text (line 108): its UTF-8
encoding. It is how this file hands a name to the OS layer as a C string. -/
def Utf8Bytes (s : String) : List UInt8 :=
  s.data.flatMap String.utf8EncodeChar

/-- Conversion `OneByteString(node_isolate, filename)` (line 165): the C string
is read up to its terminating NUL, one Latin-1 character per byte. -/
def OneByteString (data : List UInt8) : String :=
  String.mk ((data.takeWhile fun b => b != 0).map fun b => Char.ofNat b.toNat)

/-! ## Calls to collaborators -/

/-- A call the binding makes to code outside this file, with its arguments.
`uv_fs_event_init` also records the status code the OS layer answered. -/
inductive Effect where
  | uv_fs_event_init (path : String) (flags : Int) (err : Int)
  | uv_unref
  | HandleWrap_Close
  | MakeCallback (sym : String) (argv : List Value)
  | ThrowTypeError (msg : String)
  deriving DecidableEq, Repr

/-- A fatal end of the process: a failed `assert` or a call of `abort()`. -/
inductive Fatal where
  | assertion (expr : String)
  | abort
  deriving DecidableEq, Repr

/-- The event bits of libuv (`enum uv_fs_event` of uv.h, which is not part of
this file): taken as parameters. -/
structure Uv where
  UV_RENAME : Int
  UV_CHANGE : Int
  deriving DecidableEq, Repr

/-- The values libuv gives the two bits: `UV_RENAME = 1`, `UV_CHANGE = 2`. -/
def libuv : Uv := { UV_RENAME := 1, UV_CHANGE := 2 }

/-- Symbol `change_sym`, set by `Initialize` (line 85). -/
def change_sym : String := "change"

/-- Symbol `onchange_sym`, set by `Initialize` (line 86). -/
def onchange_sym : String := "onchange"

/-- Symbol `rename_sym`, set by `Initialize` (line 87). -/
def rename_sym : String := "rename"

/-! ## The object -/

/-- The data member of `class FSEventWrap` that the methods read and write
(line 58). The member `handle_` is storage owned by libuv. -/
structure FSEventWrap where
  initialized_ : Bool
  deriving DecidableEq, Repr

/-- The constructor (lines 62-65): `initialized_ = false`. -/
def FSEventWrap.new : FSEventWrap := { initialized_ := false }

/-- The destructor (lines 68-70): `assert(initialized_ == false)`. -/
def FSEventWrap.destroy (wrap : FSEventWrap) : Except Fatal Unit :=
  if wrap.initialized_ == false then .ok ()
  else .error (.assertion "initialized_ == false")

/-! ## Start -/

/-- What a call of `Start` leaves behind: the object, the calls made in order,
and the value given to `args.GetReturnValue().Set`, if any. -/
structure StartResult where
  wrap : FSEventWrap
  calls : List Effect
  returnValue : Option Int
  deriving DecidableEq, Repr

/-- Method `FSEventWrap::Start` (lines 98-124), for the object `wrap` that
`NODE_UNWRAP` found. `uv_fs_event_init path` is the status code the OS layer
answers for a watch on `path`. -/
def Start (uv_fs_event_init : String → Int) (wrap : FSEventWrap)
    (args : List Value) : StartResult :=
  if args.length < 1 || !(argAt args 0).IsString then
    { wrap := wrap, calls := [Effect.ThrowTypeError "Bad arguments"],
      returnValue := none }
  else
    let path := Utf8Value (argAt args 0)
    let err := uv_fs_event_init path
    let init := [Effect.uv_fs_event_init path 0 err]
    if err == 0 then
      let unref := if !(argAt args 1).IsTrue then [Effect.uv_unref] else []
      { wrap := { wrap with initialized_ := true },
        calls := init ++ unref,
        returnValue := some err }
    else
      { wrap := wrap, calls := init, returnValue := some err }

/-! ## OnEvent -/

/-- What a call of `OnEvent` leaves behind: the object and the calls made. -/
structure EventResult where
  wrap : FSEventWrap
  calls : List Effect
  deriving DecidableEq, Repr

/-- The choice of `eventStr` (lines 147-156); `none` is the last branch,
which aborts. -/
def eventStr (uv : Uv) (events status : Int) : Option String :=
  if status != 0 then some ""
  else if Int.land events uv.UV_RENAME != 0 then some rename_sym
  else if Int.land events uv.UV_CHANGE != 0 then some change_sym
  else none

/-- The array `argv` handed to the callback (lines 158-166). `filename` is
`none` for a NULL pointer, else the bytes the pointer points at. -/
def argv (eventStr : String) (filename : Option (List UInt8)) (status : Int) :
    List Value :=
  let argv := [Value.int status, Value.str eventStr, Value.null]
  match filename with
  | some f => argv.set 2 (Value.str (OneByteString f))
  | none => argv

/-- Function `FSEventWrap::OnEvent` (lines 127-169). `persistentIsEmpty` is
what `wrap->persistent().IsEmpty()` answers (a member of the base class
`HandleWrap`, asserted to be false on line 134: the JavaScript object of the
handle is alive); `filename` is `none` for a NULL pointer, else the bytes of
the C string. The last branch of
the choice of `eventStr` fails its `assert(0 && ...)` and aborts. -/
def OnEvent (uv : Uv) (persistentIsEmpty : Bool) (wrap : FSEventWrap)
    (filename : Option (List UInt8)) (events status : Int) :
    Except Fatal EventResult :=
  if persistentIsEmpty != false then
    .error (.assertion "wrap->persistent().IsEmpty() == false")
  else
    match eventStr uv events status with
    | none => .error (.assertion "bad fs events flag")
    | some s =>
      .ok { wrap := wrap,
            calls := [Effect.MakeCallback onchange_sym (argv s filename status)] }

/-! ## Close -/

/-- Method `FSEventWrap::Close` (lines 172-182). The argument is what
`NODE_UNWRAP_NO_ABORT` found: `none` for a NULL `wrap`. -/
def Close (wrap : Option FSEventWrap) : Option FSEventWrap × List Effect :=
  match wrap with
  | none => (none, [])
  | some w =>
    if w.initialized_ == false then (some w, [])
    else (some { w with initialized_ := false }, [Effect.HandleWrap_Close])

/-! ## Sequences of operations on one handle -/

/-- One operation on a handle: a call of `Start` (with the answer the OS layer
gives to `uv_fs_event_init`), a call of `Close`, or a notification delivered
to `OnEvent` (with the answer of `wrap->persistent().IsEmpty()` at that
moment). -/
inductive Op where
  | Start (uv_fs_event_init : String → Int) (args : List Value)
  | Close
  | OnEvent (persistentIsEmpty : Bool) (filename : Option (List UInt8))
      (events status : Int)

/-- The handle and its surroundings: the object, every call made so far in
order, and the fatal error that ended the process, if any. -/
structure World where
  wrap : FSEventWrap
  trace : List Effect
  fatal : Option Fatal
  deriving DecidableEq, Repr

/-- A freshly constructed handle: nothing called yet. -/
def World.fresh : World :=
  { wrap := FSEventWrap.new, trace := [], fatal := none }

/-- One operation applied to the handle. Nothing runs once the process has
ended; an operation that aborts ends it. -/
def step (uv : Uv) (s : World) (op : Op) : World :=
  match s.fatal with
  | some _ => s
  | none =>
    match op with
    | .Start uv_fs_event_init args =>
      let r := Start uv_fs_event_init s.wrap args
      { s with wrap := r.wrap, trace := s.trace ++ r.calls }
    | .Close =>
      let r := Close (some s.wrap)
      { s with wrap := r.1.getD s.wrap, trace := s.trace ++ r.2 }
    | .OnEvent persistentIsEmpty filename events status =>
      match OnEvent uv persistentIsEmpty s.wrap filename events status with
      | .error e => { s with fatal := some e }
      | .ok r => { s with wrap := r.wrap, trace := s.trace ++ r.calls }

/-- A sequence of operations applied from left to right. -/
def run (uv : Uv) (s : World) (ops : List Op) : World :=
  ops.foldl (step uv) s

/-- The operation is a `Start` that acquires the OS resource: its first
argument is a string and the OS layer answers 0 for it. -/
def Op.acquires : Op → Bool
  | .Start uv_fs_event_init args =>
    !(args.length < 1 || !(argAt args 0).IsString)
      && uv_fs_event_init (Utf8Value (argAt args 0)) == 0
  | _ => false

/-- The number of `HandleWrap::Close` calls among the calls made. -/
def releases (calls : List Effect) : Nat :=
  calls.count Effect.HandleWrap_Close

/-- The callbacks dispatched among the calls made. -/
def dispatched (calls : List Effect) : List Effect :=
  calls.filter fun
    | .MakeCallback _ _ => true
    | _ => false

/-- The third callback value for a filename pointer: the string that
`OneByteString` makes of the bytes, or `null` for a NULL pointer. -/
def filenameValue : Option (List UInt8) → Value
  | some f => Value.str (OneByteString f)
  | none => Value.null

/-- The number of successful acquisitions among the calls made: calls of
`uv_fs_event_init` that the OS layer answered with 0. -/
def acquisitions (calls : List Effect) : Nat :=
  calls.countP fun
    | .uv_fs_event_init _ _ err => err == 0
    | _ => false

/-- The number of `uv_unref` calls among the calls made. -/
def unrefs (calls : List Effect) : Nat :=
  calls.count Effect.uv_unref

/-- The OS watch resource is held: it was acquired by a successful
`uv_fs_event_init` and not yet released through `HandleWrap::Close`. -/
def held (calls : List Effect) : Bool :=
  decide (releases calls < acquisitions calls)

/-- Every `Start` of the sequence is called while the handle is not Active
(`initialized_ == false`), the sequence being applied from the state `s`. -/
def startsWhileInactive (uv : Uv) (s : World) : List Op → Bool
  | [] => true
  | op :: ops =>
    (match op with
      | .Start _ _ => !s.wrap.initialized_
      | _ => true)
    && startsWhileInactive uv (step uv s op) ops

/-! ## Theorems -/

/-- The array handed to the callback is (status, eventStr, filename or null). -/
theorem argv_eq (s : String) (filename : Option (List UInt8)) (status : Int) :
    argv s filename status = [Value.int status, Value.str s, filenameValue filename] := by
  cases filename <;> rfl

/-- C1: a notification delivered to OnEvent (for a handle whose JavaScript
object is alive) with status 0 and the rename bit set, whatever the change
bit, dispatches exactly one callback, and its event name is "rename". -/
theorem OnEvent_rename (uv : Uv) (wrap : FSEventWrap) (filename : Option (List UInt8))
    (events status : Int) (hs : status = 0)
    (hr : Int.land events uv.UV_RENAME ≠ 0) :
    OnEvent uv false wrap filename events status =
      .ok { wrap := wrap,
            calls := [Effect.MakeCallback "onchange"
              [Value.int 0, Value.str "rename", filenameValue filename]] } := by
  subst hs
  simp [OnEvent, eventStr, hr, argv_eq, onchange_sym, rename_sym]

/-- Scenario B: RENAME|CHANGE for "b.txt" with status 0 dispatches
(0, "rename", "b.txt"). -/
theorem OnEvent_rename_witness :
    (0 : Int) = 0 ∧ Int.land (Int.lor libuv.UV_RENAME libuv.UV_CHANGE) libuv.UV_RENAME ≠ 0 ∧
    OnEvent libuv false ⟨true⟩ (some (Utf8Bytes "b.txt"))
        (Int.lor libuv.UV_RENAME libuv.UV_CHANGE) 0 =
      .ok { wrap := ⟨true⟩,
            calls := [Effect.MakeCallback "onchange"
              [Value.int 0, Value.str "rename", Value.str "b.txt"]] } :=
  ⟨rfl, by decide, OnEvent_rename libuv ⟨true⟩ (some (Utf8Bytes "b.txt")) _ 0 rfl (by decide)⟩

/-- C2: a notification delivered to OnEvent (for a handle whose JavaScript
object is alive) with status 0, the change bit set and the rename bit clear
dispatches exactly one callback, with status code 0 and name "change". -/
theorem OnEvent_change (uv : Uv) (wrap : FSEventWrap) (filename : Option (List UInt8))
    (events status : Int) (hs : status = 0)
    (hc : Int.land events uv.UV_CHANGE ≠ 0)
    (hr : Int.land events uv.UV_RENAME = 0) :
    OnEvent uv false wrap filename events status =
      .ok { wrap := wrap,
            calls := [Effect.MakeCallback "onchange"
              [Value.int 0, Value.str "change", filenameValue filename]] } := by
  subst hs
  simp [OnEvent, eventStr, hr, hc, argv_eq, onchange_sym, change_sym]

/-- Scenario A: CHANGE for "a.txt" with status 0 dispatches
(0, "change", "a.txt"). -/
theorem OnEvent_change_witness :
    Int.land libuv.UV_CHANGE libuv.UV_CHANGE ≠ 0 ∧
    Int.land libuv.UV_CHANGE libuv.UV_RENAME = 0 ∧
    OnEvent libuv false ⟨true⟩ (some (Utf8Bytes "a.txt")) libuv.UV_CHANGE 0 =
      .ok { wrap := ⟨true⟩,
            calls := [Effect.MakeCallback "onchange"
              [Value.int 0, Value.str "change", Value.str "a.txt"]] } :=
  ⟨by decide, by decide,
    OnEvent_change libuv ⟨true⟩ (some (Utf8Bytes "a.txt")) libuv.UV_CHANGE 0 rfl
      (by decide) (by decide)⟩

/-- C3: a notification delivered to OnEvent (for a handle whose JavaScript
object is alive) with a nonzero status, whatever its event bits, dispatches
exactly one callback, whose name is the empty string and whose status code is
that status. -/
theorem OnEvent_error_status (uv : Uv) (wrap : FSEventWrap)
    (filename : Option (List UInt8)) (events status : Int) (hs : status ≠ 0) :
    OnEvent uv false wrap filename events status =
      .ok { wrap := wrap,
            calls := [Effect.MakeCallback "onchange"
              [Value.int status, Value.str "", filenameValue filename]] } := by
  simp [OnEvent, eventStr, hs, argv_eq, onchange_sym]

/-- Scenario C: no bits, no filename, status -2 dispatches (-2, "", null). -/
theorem OnEvent_error_status_witness :
    (-2 : Int) ≠ 0 ∧
    OnEvent libuv false ⟨true⟩ none 0 (-2) =
      .ok { wrap := ⟨true⟩,
            calls := [Effect.MakeCallback "onchange"
              [Value.int (-2), Value.str "", Value.null]] } :=
  ⟨by decide, OnEvent_error_status libuv ⟨true⟩ none 0 (-2) (by decide)⟩

/-- C4, as stated, fails: with status -2 and the filename "a.txt" the third
callback value is the string "a.txt", not null. -/
theorem OnEvent_error_filename_counterexample :
    OnEvent libuv false ⟨true⟩ (some (Utf8Bytes "a.txt")) 0 (-2) =
      .ok { wrap := ⟨true⟩,
            calls := [Effect.MakeCallback "onchange"
              [Value.int (-2), Value.str "", Value.str "a.txt"]] } ∧
    Value.str "a.txt" ≠ Value.null :=
  ⟨rfl, by decide⟩

/-- C4, amended: for a notification with a nonzero status the third callback
value is null exactly when the OS supplied no filename; when a filename was
supplied the third value is a string. -/
theorem OnEvent_error_filename (uv : Uv) (wrap : FSEventWrap)
    (filename : Option (List UInt8)) (events status : Int) (hs : status ≠ 0) :
    ∃ third : Value,
      OnEvent uv false wrap filename events status =
        .ok { wrap := wrap,
              calls := [Effect.MakeCallback "onchange"
                [Value.int status, Value.str "", third]] } ∧
      (third = Value.null ↔ filename = none) ∧
      (filename ≠ none → third.IsString = true) := by
  refine ⟨filenameValue filename, ?_, ?_, ?_⟩
  · simp [OnEvent, eventStr, hs, argv_eq, onchange_sym]
  · cases filename <;> simp [filenameValue]
  · cases filename <;> simp [filenameValue, Value.IsString]

/-- An error notification that carries the filename "a.txt" gives the callback
a string, not null. -/
theorem OnEvent_error_filename_witness :
    (-2 : Int) ≠ 0 ∧
    ∃ third : Value,
      OnEvent libuv false ⟨true⟩ (some (Utf8Bytes "a.txt")) 0 (-2) =
        .ok { wrap := ⟨true⟩,
              calls := [Effect.MakeCallback "onchange"
                [Value.int (-2), Value.str "", third]] } ∧
      (third = Value.null ↔ some (Utf8Bytes "a.txt") = none) ∧
      (some (Utf8Bytes "a.txt") ≠ none → third.IsString = true) :=
  ⟨by decide,
    OnEvent_error_filename libuv ⟨true⟩ (some (Utf8Bytes "a.txt")) 0 (-2) (by decide)⟩

/-- Whenever OnEvent dispatches, it dispatches one callback whose third value
is null when the OS supplied no filename and is otherwise the string that
OneByteString makes of the bytes supplied. -/
theorem OnEvent_filename_value (uv : Uv) (persistentIsEmpty : Bool)
    (wrap : FSEventWrap) (filename : Option (List UInt8)) (events status : Int)
    (r : EventResult)
    (h : OnEvent uv persistentIsEmpty wrap filename events status = .ok r) :
    ∃ (name : String) (third : Value),
      r.calls = [Effect.MakeCallback "onchange"
        [Value.int status, Value.str name, third]] ∧
      (third ≠ Value.null ↔ filename ≠ none) ∧
      (∀ f, filename = some f → third = Value.str (OneByteString f)) ∧
      (filename = none → third = Value.null) := by
  unfold OnEvent at h
  split at h
  · cases h
  · split at h
    · cases h
    · rename_i name _
      cases h
      refine ⟨name, filenameValue filename, ?_, ?_, ?_, ?_⟩
      · simp [argv_eq, onchange_sym]
      · cases filename <;> simp [filenameValue]
      · intro f hf
        subst hf
        rfl
      · intro hf
        subst hf
        rfl

/-- C5 fails on the code at a filename that is not ASCII: for a change
notification about the file "é.txt", whose name the OS supplies as the six
UTF-8 bytes C3 A9 2E 74 78 74, the callback receives the six-character string
"Ã©.txt" (one character per byte), which is not the filename supplied; an
ASCII name such as "a.txt" arrives as it is. -/
theorem OnEvent_filename_non_ascii :
    Utf8Bytes "é.txt" = [0xC3, 0xA9, 0x2E, 0x74, 0x78, 0x74] ∧
    OnEvent libuv false ⟨true⟩ (some (Utf8Bytes "é.txt")) libuv.UV_CHANGE 0 =
      .ok { wrap := ⟨true⟩,
            calls := [Effect.MakeCallback "onchange"
              [Value.int 0, Value.str "change", Value.str "Ã©.txt"]] } ∧
    Value.str "Ã©.txt" ≠ Value.str "é.txt" ∧
    OneByteString (Utf8Bytes "a.txt") = "a.txt" :=
  ⟨by decide, rfl, by decide, by decide⟩

/-- C6: on an Uninitialized handle and a string path, Start calls the OS
acquisition with that path and returns exactly its status code; either the
code is 0 and the handle becomes Active, or it is nonzero and the handle stays
Uninitialized. -/
theorem Start_returns_os_status (uv_fs_event_init : String → Int)
    (wrap : FSEventWrap) (path : String) (rest : List Value)
    (hu : wrap.initialized_ = false) :
    (Start uv_fs_event_init wrap (Value.str path :: rest)).calls.head? =
      some (Effect.uv_fs_event_init path 0 (uv_fs_event_init path)) ∧
    (Start uv_fs_event_init wrap (Value.str path :: rest)).returnValue =
      some (uv_fs_event_init path) ∧
    ((uv_fs_event_init path = 0 ∧
        (Start uv_fs_event_init wrap (Value.str path :: rest)).wrap.initialized_ = true) ∨
     (uv_fs_event_init path ≠ 0 ∧
        (Start uv_fs_event_init wrap (Value.str path :: rest)).wrap.initialized_ = false)) := by
  by_cases h : uv_fs_event_init path = 0
  · simp [Start, argAt, Value.IsString, Utf8Value, h]
  · simp [Start, argAt, Value.IsString, Utf8Value, h, hu]

/-- Scenario A, first half: Start on "/tmp/watched" returns the 0 the OS
answers and the handle is Active. -/
theorem Start_returns_os_status_witness :
    (Start (fun _ => 0) FSEventWrap.new
        [Value.str "/tmp/watched", Value.bool false]).calls.head? =
      some (Effect.uv_fs_event_init "/tmp/watched" 0 0) ∧
    (Start (fun _ => 0) FSEventWrap.new
        [Value.str "/tmp/watched", Value.bool false]).returnValue = some 0 ∧
    (((0 : Int) = 0 ∧
        (Start (fun _ => 0) FSEventWrap.new
          [Value.str "/tmp/watched", Value.bool false]).wrap.initialized_ = true) ∨
     ((0 : Int) ≠ 0 ∧
        (Start (fun _ => 0) FSEventWrap.new
          [Value.str "/tmp/watched", Value.bool false]).wrap.initialized_ = false)) :=
  Start_returns_os_status (fun _ => 0) FSEventWrap.new "/tmp/watched"
    [Value.bool false] rfl

/-- C7: Close is idempotent. A second Close right after a first changes
nothing and calls nothing, so two calls leave the same handle and the same
number of HandleWrap::Close calls as one; and Close on a handle that is not
Active (a NULL wrap, or initialized_ = false) changes nothing and releases
nothing. -/
theorem Close_idempotent (wrap : Option FSEventWrap) :
    Close (Close wrap).1 = ((Close wrap).1, []) ∧
    (Close (Close wrap).1).1 = (Close wrap).1 ∧
    releases ((Close wrap).2 ++ (Close (Close wrap).1).2) = releases (Close wrap).2 ∧
    (∀ (uv : Uv) (s : World), run uv s [Op.Close, Op.Close] = run uv s [Op.Close]) ∧
    Close none = (none, []) ∧
    (∀ w : FSEventWrap, w.initialized_ = false → Close (some w) = (some w, [])) := by
  have h2 : Close (Close wrap).1 = ((Close wrap).1, []) := by
    rcases wrap with _ | ⟨_ | _⟩ <;> rfl
  refine ⟨h2, by rw [h2], by rw [h2]; simp, ?_, rfl, ?_⟩
  · intro uv s
    rcases s with ⟨⟨_ | _⟩, trace, _ | e⟩ <;> simp [run, step, Close]
  · intro w h
    simp [Close, h]

/-- Close on a new handle changes nothing and releases nothing. -/
theorem Close_idempotent_witness :
    FSEventWrap.new.initialized_ = false ∧
    Close (some FSEventWrap.new) = (some FSEventWrap.new, []) :=
  ⟨rfl, (Close_idempotent (some FSEventWrap.new)).2.2.2.2.2 FSEventWrap.new rfl⟩

/-- After Start the handle is Active exactly when it was Active before or
this Start acquired. -/
theorem Start_initialized (init : String → Int) (wrap : FSEventWrap)
    (args : List Value) :
    (Start init wrap args).wrap.initialized_ =
      (wrap.initialized_ || (Op.Start init args).acquires) := by
  simp only [Start, Op.acquires]
  generalize (decide (args.length < 1) || !(argAt args 0).IsString) = c
  generalize init (Utf8Value (argAt args 0)) = e
  cases c
  · by_cases he : e = 0
    · simp [he]
    · simp [he]
  · simp

/-- A step by an operation that does not acquire keeps a handle that is not
Active not Active. -/
theorem step_keeps_inactive (uv : Uv) (s : World) (op : Op)
    (hs : s.wrap.initialized_ = false) (hop : op.acquires = false) :
    (step uv s op).wrap.initialized_ = false := by
  unfold step
  split
  · exact hs
  · cases op with
    | Start init args =>
      simp only [Start_initialized, hs, hop, Bool.or_self]
    | Close =>
      simp [Close, hs]
    | OnEvent p f e st =>
      simp only
      split
      · exact hs
      · rename_i r hr
        unfold OnEvent at hr
        split at hr
        · cases hr
        · split at hr
          · cases hr
          · cases hr
            exact hs

/-- A run of operations none of which acquires keeps a handle that is not
Active not Active. -/
theorem run_keeps_inactive (uv : Uv) (ops : List Op) :
    ∀ s : World, s.wrap.initialized_ = false →
      (∀ op ∈ ops, op.acquires = false) →
      (run uv s ops).wrap.initialized_ = false := by
  induction ops with
  | nil => intro s hs _; exact hs
  | cons op ops ih =>
    intro s hs hops
    have h1 := step_keeps_inactive uv s op hs (hops op (List.mem_cons_self _ _))
    exact ih (step uv s op) h1 (fun o ho => hops o (List.mem_cons_of_mem _ ho))

/-- C8, as stated, fails: a handle that was started and then closed is made
Active again by a later Start whose OS acquisition answers 0. -/
theorem closed_restart_counterexample :
    (run libuv World.fresh
      [Op.Start (fun _ => 0) [Value.str "/tmp/watched"]]).wrap.initialized_ = true ∧
    (run libuv World.fresh
      [Op.Start (fun _ => 0) [Value.str "/tmp/watched"], Op.Close]).wrap.initialized_
        = false ∧
    (run libuv World.fresh
      [Op.Start (fun _ => 0) [Value.str "/tmp/watched"], Op.Close,
       Op.Start (fun _ => 0) [Value.str "/tmp/watched"]]).wrap.initialized_ = true := by
  decide

/-- C8, amended: once an Active handle has been closed by Close, no later
sequence of Close, OnEvent and Start operations in which no Start acquires
(each Start throws or gets a nonzero status from the OS) makes it Active
again. -/
theorem closed_stays_inactive (uv : Uv) (s : World) (ops : List Op)
    (hactive : s.wrap.initialized_ = true) (halive : s.fatal = none)
    (hops : ∀ op ∈ ops, op.acquires = false) :
    (step uv s Op.Close).wrap.initialized_ = false ∧
    (run uv (step uv s Op.Close) ops).wrap.initialized_ = false := by
  have hc : (step uv s Op.Close).wrap.initialized_ = false := by
    simp [step, halive, Close, hactive]
  exact ⟨hc, run_keeps_inactive uv ops _ hc hops⟩

/-- A handle started, closed, then sent a notification, a Close, a Start the
OS refuses and a Start without arguments is not Active. -/
theorem closed_stays_inactive_witness :
    (run libuv World.fresh
      [Op.Start (fun _ => 0) [Value.str "/tmp/watched"]]).wrap.initialized_ = true ∧
    (run libuv World.fresh
      [Op.Start (fun _ => 0) [Value.str "/tmp/watched"]]).fatal = none ∧
    (run libuv
      (step libuv
        (run libuv World.fresh [Op.Start (fun _ => 0) [Value.str "/tmp/watched"]])
        Op.Close)
      [Op.OnEvent false (some (Utf8Bytes "a.txt")) 2 0, Op.Close,
       Op.Start (fun _ => -2) [Value.str "/tmp/watched"],
       Op.Start (fun _ => 0) []]).wrap.initialized_ = false :=
  ⟨by decide, by decide,
    (closed_stays_inactive libuv
      (run libuv World.fresh [Op.Start (fun _ => 0) [Value.str "/tmp/watched"]])
      [Op.OnEvent false (some (Utf8Bytes "a.txt")) 2 0, Op.Close,
       Op.Start (fun _ => -2) [Value.str "/tmp/watched"],
       Op.Start (fun _ => 0) []]
      (by decide) (by decide) (by decide)).2⟩

/-- The callbacks among the calls of two lists are those of the first followed
by those of the second. -/
theorem dispatched_append (xs ys : List Effect) :
    dispatched (xs ++ ys) = dispatched xs ++ dispatched ys := by
  simp [dispatched]

/-- C9, as stated, fails: a change notification delivered to OnEvent after
Start and Close dispatches the callback (0, "change", "a.txt"), after the
HandleWrap::Close call. -/
theorem OnEvent_after_Close_counterexample :
    run libuv World.fresh
      [Op.Start (fun _ => 0) [Value.str "/tmp/watched"], Op.Close,
       Op.OnEvent false (some (Utf8Bytes "a.txt")) 2 0] =
      { wrap := { initialized_ := false },
        trace := [Effect.uv_fs_event_init "/tmp/watched" 0 0, Effect.uv_unref,
          Effect.HandleWrap_Close,
          Effect.MakeCallback "onchange"
            [Value.int 0, Value.str "change", Value.str "a.txt"]],
        fatal := none } := by
  decide

/-- C9, amended: OnEvent does not look at initialized_. After Close the handle
is not Active, and a notification delivered to OnEvent then dispatches exactly
the callbacks it dispatches when delivered without the Close before it. -/
theorem OnEvent_after_Close (uv : Uv) (s : World) (persistentIsEmpty : Bool)
    (filename : Option (List UInt8)) (events status : Int) (halive : s.fatal = none) :
    (step uv s Op.Close).wrap.initialized_ = false ∧
    dispatched (step uv (step uv s Op.Close)
        (Op.OnEvent persistentIsEmpty filename events status)).trace =
      dispatched (step uv s
        (Op.OnEvent persistentIsEmpty filename events status)).trace := by
  rcases s with ⟨⟨i⟩, trace, fatal⟩
  simp only at halive
  subst halive
  constructor
  · cases i <;> rfl
  · cases hr : OnEvent uv persistentIsEmpty ⟨i⟩ filename events status with
    | error e =>
      have hr2 : ∀ j, OnEvent uv persistentIsEmpty ⟨j⟩ filename events status
          = .error e := by
        intro j
        unfold OnEvent at hr ⊢
        split at hr
        · split
          · exact hr
          · contradiction
        · split
          · contradiction
          · split at hr
            · exact hr
            · cases hr
      cases i <;> simp [step, Close, hr, hr2, dispatched_append, dispatched]
    | ok r =>
      have hr2 : ∀ j, OnEvent uv persistentIsEmpty ⟨j⟩ filename events status
          = .ok { wrap := ⟨j⟩, calls := r.calls } := by
        intro j
        unfold OnEvent at hr ⊢
        split at hr
        · cases hr
        · split
          · contradiction
          · split at hr
            · cases hr
            · cases hr
              rfl
      cases i <;> simp [step, Close, hr, hr2, dispatched_append, dispatched]

/-- Closing an Active handle and then delivering a change notification
dispatches the same callback as delivering it to the Active handle. -/
theorem OnEvent_after_Close_witness :
    (World.mk ⟨true⟩ [] none).fatal = none ∧
    (step libuv (World.mk ⟨true⟩ [] none) Op.Close).wrap.initialized_ = false ∧
    dispatched (step libuv (step libuv (World.mk ⟨true⟩ [] none) Op.Close)
        (Op.OnEvent false (some (Utf8Bytes "a.txt")) 2 0)).trace =
      dispatched (step libuv (World.mk ⟨true⟩ [] none)
        (Op.OnEvent false (some (Utf8Bytes "a.txt")) 2 0)).trace :=
  ⟨rfl, OnEvent_after_Close libuv (World.mk ⟨true⟩ [] none) false (some (Utf8Bytes "a.txt")) 2 0 rfl⟩

/-- C10, as stated, fails: Start with the empty path and persistent = true
throws nothing; it calls uv_fs_event_init with the empty path and returns the
status code the OS answers, here -2. -/
theorem Start_empty_path_counterexample :
    Start (fun _ => -2) FSEventWrap.new [Value.str "", Value.bool true] =
      { wrap := { initialized_ := false },
        calls := [Effect.uv_fs_event_init "" 0 (-2)],
        returnValue := some (-2) } := by
  decide

/-- C10, amended: Start with the empty string as path and persistent = true
raises no argument error; it makes exactly one call, uv_fs_event_init with the
empty path, returns the status code of that call, and leaves an Uninitialized
handle Uninitialized when that code is nonzero. -/
theorem Start_empty_path (uv_fs_event_init : String → Int) (wrap : FSEventWrap)
    (hu : wrap.initialized_ = false) :
    (Start uv_fs_event_init wrap [Value.str "", Value.bool true]).calls =
      [Effect.uv_fs_event_init "" 0 (uv_fs_event_init "")] ∧
    (Start uv_fs_event_init wrap [Value.str "", Value.bool true]).returnValue =
      some (uv_fs_event_init "") ∧
    (uv_fs_event_init "" ≠ 0 →
      (Start uv_fs_event_init wrap
        [Value.str "", Value.bool true]).wrap.initialized_ = false) := by
  by_cases h : uv_fs_event_init "" = 0
  · simp [Start, argAt, Value.IsString, Value.IsTrue, Utf8Value, h]
  · simp [Start, argAt, Value.IsString, Value.IsTrue, Utf8Value, h, hu]

/-- Start with the empty path on a new handle, the OS answering -2. -/
theorem Start_empty_path_witness :
    FSEventWrap.new.initialized_ = false ∧
    (Start (fun _ => -2) FSEventWrap.new [Value.str "", Value.bool true]).calls =
      [Effect.uv_fs_event_init "" 0 (-2)] ∧
    (Start (fun _ => -2) FSEventWrap.new
      [Value.str "", Value.bool true]).returnValue = some (-2) ∧
    (Start (fun _ => -2) FSEventWrap.new
      [Value.str "", Value.bool true]).wrap.initialized_ = false :=
  ⟨rfl, (Start_empty_path (fun _ => -2) FSEventWrap.new rfl).1,
    (Start_empty_path (fun _ => -2) FSEventWrap.new rfl).2.1,
    (Start_empty_path (fun _ => -2) FSEventWrap.new rfl).2.2 (by decide)⟩

/-- C11: a Start whose first argument is missing or is not a string throws the
type error "Bad arguments" and does nothing else: no uv_fs_event_init, no
uv_unref, no return value set, and the handle as it was. -/
theorem Start_bad_arguments (uv_fs_event_init : String → Int)
    (wrap : FSEventWrap) (args : List Value)
    (hbad : args = [] ∨ (argAt args 0).IsString = false) :
    Start uv_fs_event_init wrap args =
      { wrap := wrap, calls := [Effect.ThrowTypeError "Bad arguments"],
        returnValue := none } ∧
    acquisitions (Start uv_fs_event_init wrap args).calls = 0 ∧
    (∀ path flags err,
      Effect.uv_fs_event_init path flags err ∉ (Start uv_fs_event_init wrap args).calls) ∧
    unrefs (Start uv_fs_event_init wrap args).calls = 0 ∧
    (Start uv_fs_event_init wrap args).wrap.initialized_ = wrap.initialized_ := by
  have h : Start uv_fs_event_init wrap args =
      { wrap := wrap, calls := [Effect.ThrowTypeError "Bad arguments"],
        returnValue := none } := by
    rcases hbad with h | h
    · subst h
      rfl
    · simp [Start, h]
  rw [h]
  simp [acquisitions, unrefs]

/-- Start with a number as first argument on an Active handle, and Start with
no argument, both with an OS that would answer 0. -/
theorem Start_bad_arguments_witness :
    ([Value.int 5] = [] ∨ (argAt [Value.int 5] 0).IsString = false) ∧
    Start (fun _ => 0) ⟨true⟩ [Value.int 5] =
      { wrap := ⟨true⟩, calls := [Effect.ThrowTypeError "Bad arguments"],
        returnValue := none } ∧
    Start (fun _ => 0) FSEventWrap.new [] =
      { wrap := FSEventWrap.new, calls := [Effect.ThrowTypeError "Bad arguments"],
        returnValue := none } :=
  ⟨Or.inr rfl,
    (Start_bad_arguments (fun _ => 0) ⟨true⟩ [Value.int 5] (Or.inr rfl)).1,
    (Start_bad_arguments (fun _ => 0) FSEventWrap.new [] (Or.inl rfl)).1⟩

/-- C12: for a Start with a string path, when the OS acquisition answers 0
uv_unref is called once if the persistent argument is not the value true
(false, absent, or anything else) and not at all if it is true; when the
acquisition answers nonzero uv_unref is never called. -/
theorem Start_unref (uv_fs_event_init : String → Int) (wrap : FSEventWrap)
    (path : String) (rest : List Value) :
    (uv_fs_event_init path = 0 →
      (unrefs (Start uv_fs_event_init wrap (Value.str path :: rest)).calls = 1 ↔
        (argAt (Value.str path :: rest) 1).IsTrue = false) ∧
      ((argAt (Value.str path :: rest) 1).IsTrue = true →
        unrefs (Start uv_fs_event_init wrap (Value.str path :: rest)).calls = 0)) ∧
    (uv_fs_event_init path ≠ 0 →
      unrefs (Start uv_fs_event_init wrap (Value.str path :: rest)).calls = 0) ∧
    (argAt (Value.str path :: rest) 1 = Value.bool false ∨ rest = [] →
      (argAt (Value.str path :: rest) 1).IsTrue = false) := by
  refine ⟨?_, ?_, ?_⟩
  · intro h
    cases hp : (argAt (Value.str path :: rest) 1).IsTrue <;>
      simp [Start, argAt, Value.IsString, Utf8Value, h, unrefs] <;>
      simp [argAt] at hp <;> simp [hp]
  · intro h
    simp [Start, argAt, Value.IsString, Utf8Value, h, unrefs]
  · rintro (h | h)
    · rw [h]
      rfl
    · subst h
      rfl

/-- A successful Start with persistent false, absent and true, and a failed
Start with persistent false. -/
theorem Start_unref_witness :
    unrefs (Start (fun _ => 0) FSEventWrap.new
      [Value.str "/tmp/watched", Value.bool false]).calls = 1 ∧
    unrefs (Start (fun _ => 0) FSEventWrap.new [Value.str "/tmp/watched"]).calls = 1 ∧
    unrefs (Start (fun _ => 0) FSEventWrap.new
      [Value.str "/tmp/watched", Value.bool true]).calls = 0 ∧
    unrefs (Start (fun _ => -2) FSEventWrap.new
      [Value.str "/tmp/watched", Value.bool false]).calls = 0 :=
  ⟨((Start_unref (fun _ => 0) FSEventWrap.new "/tmp/watched"
      [Value.bool false]).1 rfl).1.2 rfl,
    ((Start_unref (fun _ => 0) FSEventWrap.new "/tmp/watched" []).1 rfl).1.2 rfl,
    ((Start_unref (fun _ => 0) FSEventWrap.new "/tmp/watched"
      [Value.bool true]).1 rfl).2 rfl,
    (Start_unref (fun _ => -2) FSEventWrap.new "/tmp/watched"
      [Value.bool false]).2.1 (by decide)⟩

/-- When OnEvent dispatches, the object is the one it was given and the one
call made is the callback. -/
theorem OnEvent_ok_shape (uv : Uv) (persistentIsEmpty : Bool) (wrap : FSEventWrap)
    (filename : Option (List UInt8)) (events status : Int) (r : EventResult)
    (h : OnEvent uv persistentIsEmpty wrap filename events status = .ok r) :
    r.wrap = wrap ∧ ∃ a, r.calls = [Effect.MakeCallback onchange_sym a] := by
  unfold OnEvent at h
  split at h
  · cases h
  · split at h
    · cases h
    · cases h
      exact ⟨rfl, _, rfl⟩

/-- C13: a notification with status 0 and neither the rename nor the change
bit set is fatal and dispatches no callback; a notification with a nonzero
status or at least one of the two bits set does not abort and dispatches
exactly one callback (for a handle whose JavaScript object is alive). -/
theorem OnEvent_abort_iff (uv : Uv) (wrap : FSEventWrap)
    (filename : Option (List UInt8)) (events status : Int) :
    (status = 0 ∧ Int.land events uv.UV_RENAME = 0 ∧
        Int.land events uv.UV_CHANGE = 0 →
      OnEvent uv false wrap filename events status =
        .error (Fatal.assertion "bad fs events flag") ∧
      ∀ trace : List Effect,
        step uv { wrap := wrap, trace := trace, fatal := none }
            (Op.OnEvent false filename events status) =
          { wrap := wrap, trace := trace,
            fatal := some (Fatal.assertion "bad fs events flag") }) ∧
    (status ≠ 0 ∨ Int.land events uv.UV_RENAME ≠ 0 ∨
        Int.land events uv.UV_CHANGE ≠ 0 →
      ∃ name : String,
        OnEvent uv false wrap filename events status =
          .ok { wrap := wrap,
                calls := [Effect.MakeCallback "onchange"
                  [Value.int status, Value.str name, filenameValue filename]] }) := by
  constructor
  · rintro ⟨hs, hr, hc⟩
    have h : OnEvent uv false wrap filename events status =
        .error (Fatal.assertion "bad fs events flag") := by
      simp [OnEvent, eventStr, hs, hr, hc]
    refine ⟨h, fun trace => ?_⟩
    simp [step, h]
  · intro h
    by_cases hs : status = 0
    · by_cases hr : Int.land events uv.UV_RENAME = 0
      · have hc : Int.land events uv.UV_CHANGE ≠ 0 := by
          rcases h with h | h | h
          · exact absurd hs h
          · exact absurd hr h
          · exact h
        exact ⟨"change", by
          simp [OnEvent, eventStr, hs, hr, hc, argv_eq, onchange_sym, change_sym]⟩
      · exact ⟨"rename", by
          simp [OnEvent, eventStr, hs, hr, argv_eq, onchange_sym, rename_sym]⟩
    · exact ⟨"", by simp [OnEvent, eventStr, hs, argv_eq, onchange_sym]⟩

/-- A notification with status 0 and no bit aborts; one with status 0 and the
change bit dispatches. -/
theorem OnEvent_abort_iff_witness :
    ((0 : Int) = 0 ∧ Int.land 0 libuv.UV_RENAME = 0 ∧ Int.land 0 libuv.UV_CHANGE = 0) ∧
    OnEvent libuv false ⟨true⟩ (some (Utf8Bytes "a.txt")) 0 0 =
      .error (Fatal.assertion "bad fs events flag") ∧
    ((0 : Int) ≠ 0 ∨ Int.land 2 libuv.UV_RENAME ≠ 0 ∨ Int.land 2 libuv.UV_CHANGE ≠ 0) ∧
    ∃ name : String,
      OnEvent libuv false ⟨true⟩ (some (Utf8Bytes "a.txt")) 2 0 =
        .ok { wrap := ⟨true⟩,
              calls := [Effect.MakeCallback "onchange"
                [Value.int 0, Value.str name, filenameValue (some (Utf8Bytes "a.txt"))]] } :=
  ⟨by decide,
    ((OnEvent_abort_iff libuv ⟨true⟩ (some (Utf8Bytes "a.txt")) 0 0).1 (by decide)).1,
    by decide,
    (OnEvent_abort_iff libuv ⟨true⟩ (some (Utf8Bytes "a.txt")) 2 0).2 (by decide)⟩

/-- Successful acquisitions of two lists of calls add up. -/
theorem acquisitions_append (xs ys : List Effect) :
    acquisitions (xs ++ ys) = acquisitions xs + acquisitions ys := by
  simp [acquisitions]

/-- Releases of two lists of calls add up. -/
theorem releases_append (xs ys : List Effect) :
    releases (xs ++ ys) = releases xs + releases ys := by
  simp [releases]

/-- One operation keeps the count of successful acquisitions equal to the
count of releases plus one for an Active handle, when a Start is only applied
to a handle that is not Active. -/
theorem step_keeps_balance (uv : Uv) (s : World) (op : Op)
    (hbal : acquisitions s.trace = releases s.trace + s.wrap.initialized_.toNat)
    (hop : ∀ init args, op = Op.Start init args → s.wrap.initialized_ = false) :
    acquisitions (step uv s op).trace =
      releases (step uv s op).trace + (step uv s op).wrap.initialized_.toNat := by
  rcases s with ⟨⟨i⟩, trace, fatal⟩
  cases fatal with
  | some e => simpa [step] using hbal
  | none =>
    cases op with
    | Start init args =>
      have hi : i = false := hop init args rfl
      subst hi
      simp only [Bool.toNat_false, Nat.add_zero] at hbal
      simp only [step, Start]
      generalize (decide (args.length < 1) || !(argAt args 0).IsString) = c
      generalize init (Utf8Value (argAt args 0)) = e
      generalize (argAt args 1).IsTrue = t
      cases c
      · by_cases he : e = 0
        · cases t <;>
            simp [he, acquisitions_append, releases_append, hbal] <;>
            simp [acquisitions, releases]
        · simp [he, acquisitions_append, releases_append, hbal]
          simp [acquisitions, releases, he]
      · simp [acquisitions_append, releases_append, hbal]
        simp [acquisitions, releases]
    | Close =>
      cases i
      · simpa [step, Close] using hbal
      · simp only [Bool.toNat_true] at hbal
        simp [step, Close, acquisitions_append, releases_append, hbal]
        simp [acquisitions, releases]
    | OnEvent p f ev st =>
      simp only [step]
      cases hr : OnEvent uv p ⟨i⟩ f ev st with
      | error e => simpa using hbal
      | ok r =>
        obtain ⟨hw, a, hc⟩ := OnEvent_ok_shape uv p ⟨i⟩ f ev st r hr
        simp only [hw, hc, acquisitions_append, releases_append, hbal]
        simp [acquisitions, releases]

/-- A run of operations keeps the balance of acquisitions and releases, when
every Start of it is applied to a handle that is not Active. -/
theorem run_keeps_balance (uv : Uv) (ops : List Op) :
    ∀ s : World,
      acquisitions s.trace = releases s.trace + s.wrap.initialized_.toNat →
      startsWhileInactive uv s ops = true →
      acquisitions (run uv s ops).trace =
        releases (run uv s ops).trace + (run uv s ops).wrap.initialized_.toNat := by
  induction ops with
  | nil => intro s hbal _; exact hbal
  | cons op ops ih =>
    intro s hbal hg
    simp only [startsWhileInactive, Bool.and_eq_true] at hg
    refine ih (step uv s op) (step_keeps_balance uv s op hbal ?_) hg.2
    intro init args hop
    subst hop
    simpa using hg.1

/-- A beginning of a sequence whose Starts are all applied to a handle that is
not Active has the same property. -/
theorem startsWhileInactive_take (uv : Uv) (ops : List Op) :
    ∀ (s : World) (n : Nat), startsWhileInactive uv s ops = true →
      startsWhileInactive uv s (ops.take n) = true := by
  induction ops with
  | nil => intro s n h; simpa using h
  | cons op ops ih =>
    intro s n h
    cases n with
    | zero => rfl
    | succ n =>
      simp only [startsWhileInactive, Bool.and_eq_true, List.take_succ_cons] at h ⊢
      exact ⟨h.1, ih _ n h.2⟩

/-- C14: on a freshly constructed handle, for every sequence of Start, Close
and OnEvent operations in which Start is only called while the handle is not
Active, after each step the OS watch resource is held (acquired by a successful
uv_fs_event_init and not yet released through HandleWrap::Close) exactly when
the handle is Active, and there are never more releases than acquisitions; a
new handle holds no resource. -/
theorem resource_held_iff_active (uv : Uv) (ops : List Op) (n : Nat)
    (hguard : startsWhileInactive uv World.fresh ops = true) :
    held (run uv World.fresh (ops.take n)).trace =
      (run uv World.fresh (ops.take n)).wrap.initialized_ ∧
    acquisitions (run uv World.fresh (ops.take n)).trace =
      releases (run uv World.fresh (ops.take n)).trace +
        (run uv World.fresh (ops.take n)).wrap.initialized_.toNat ∧
    releases (run uv World.fresh (ops.take n)).trace ≤
      acquisitions (run uv World.fresh (ops.take n)).trace ∧
    held World.fresh.trace = false ∧
    World.fresh.wrap.initialized_ = false := by
  have hbal := run_keeps_balance uv (ops.take n) World.fresh rfl
    (startsWhileInactive_take uv ops World.fresh n hguard)
  refine ⟨?_, hbal, by omega, rfl, rfl⟩
  unfold held
  rw [hbal]
  cases (run uv World.fresh (ops.take n)).wrap.initialized_ <;> simp

/-- A handle started, notified and closed twice: after the first two steps
the resource is held and the handle is Active, after all four neither. -/
theorem resource_held_iff_active_witness :
    startsWhileInactive libuv World.fresh
      [Op.Start (fun _ => 0) [Value.str "/tmp/watched"],
       Op.OnEvent false (some (Utf8Bytes "a.txt")) 2 0, Op.Close, Op.Close] = true ∧
    (run libuv World.fresh
      ([Op.Start (fun _ => 0) [Value.str "/tmp/watched"],
        Op.OnEvent false (some (Utf8Bytes "a.txt")) 2 0, Op.Close,
        Op.Close].take 2)).wrap.initialized_ = true ∧
    held (run libuv World.fresh
      ([Op.Start (fun _ => 0) [Value.str "/tmp/watched"],
        Op.OnEvent false (some (Utf8Bytes "a.txt")) 2 0, Op.Close, Op.Close].take 2)).trace =
      (run libuv World.fresh
        ([Op.Start (fun _ => 0) [Value.str "/tmp/watched"],
          Op.OnEvent false (some (Utf8Bytes "a.txt")) 2 0, Op.Close,
          Op.Close].take 2)).wrap.initialized_ ∧
    (run libuv World.fresh
      ([Op.Start (fun _ => 0) [Value.str "/tmp/watched"],
        Op.OnEvent false (some (Utf8Bytes "a.txt")) 2 0, Op.Close,
        Op.Close].take 4)).wrap.initialized_ = false ∧
    held (run libuv World.fresh
      ([Op.Start (fun _ => 0) [Value.str "/tmp/watched"],
        Op.OnEvent false (some (Utf8Bytes "a.txt")) 2 0, Op.Close, Op.Close].take 4)).trace =
      (run libuv World.fresh
        ([Op.Start (fun _ => 0) [Value.str "/tmp/watched"],
          Op.OnEvent false (some (Utf8Bytes "a.txt")) 2 0, Op.Close,
          Op.Close].take 4)).wrap.initialized_ :=
  ⟨by decide, by decide,
    (resource_held_iff_active libuv
      [Op.Start (fun _ => 0) [Value.str "/tmp/watched"],
       Op.OnEvent false (some (Utf8Bytes "a.txt")) 2 0, Op.Close, Op.Close] 2 (by decide)).1,
    by decide,
    (resource_held_iff_active libuv
      [Op.Start (fun _ => 0) [Value.str "/tmp/watched"],
       Op.OnEvent false (some (Utf8Bytes "a.txt")) 2 0, Op.Close, Op.Close] 4 (by decide)).1⟩

/-- C15, as stated, fails: a handle that was never closed, either new or left
Uninitialized by a Start the OS refused, passes the destructor check. -/
theorem destroy_unstarted_counterexample :
    World.fresh.trace = [] ∧
    FSEventWrap.destroy World.fresh.wrap = .ok () ∧
    releases (run libuv World.fresh
      [Op.Start (fun _ => -2) [Value.str "/tmp/watched"]]).trace = 0 ∧
    FSEventWrap.destroy (run libuv World.fresh
      [Op.Start (fun _ => -2) [Value.str "/tmp/watched"]]).wrap = .ok () :=
  ⟨rfl, rfl, by decide, rfl⟩

/-- C15, amended: destruction requires the handle not to be Active: the
destructor check is fatal exactly for an Active handle (initialized_ = true)
and passes for every handle with initialized_ = false, whether it was closed
or never started. -/
theorem destroy_iff_inactive (wrap : FSEventWrap) :
    (wrap.initialized_ = true →
      FSEventWrap.destroy wrap = .error (Fatal.assertion "initialized_ == false")) ∧
    (wrap.initialized_ = false → FSEventWrap.destroy wrap = .ok ()) ∧
    (FSEventWrap.destroy ((Close (some wrap)).1.getD wrap) = .ok ()) := by
  rcases wrap with ⟨_ | _⟩ <;> simp [FSEventWrap.destroy, Close]

/-- Destroying an Active handle is fatal; destroying it after Close, or a new
handle, passes. -/
theorem destroy_iff_inactive_witness :
    FSEventWrap.destroy ⟨true⟩ = .error (Fatal.assertion "initialized_ == false") ∧
    FSEventWrap.destroy FSEventWrap.new = .ok () ∧
    FSEventWrap.destroy ((Close (some ⟨true⟩)).1.getD ⟨true⟩) = .ok () :=
  ⟨(destroy_iff_inactive ⟨true⟩).1 rfl,
    (destroy_iff_inactive FSEventWrap.new).2.1 rfl,
    (destroy_iff_inactive ⟨true⟩).2.2⟩

/-- C16: whenever OnEvent handles a notification without aborting, the handle
is as it was (an Active handle stays Active) and no HandleWrap::Close call is
made; a notification with a nonzero status is handled this way (for a handle
whose JavaScript object is alive). -/
theorem OnEvent_keeps_state (uv : Uv) (wrap : FSEventWrap)
    (filename : Option (List UInt8)) (events status : Int) :
    (∀ (persistentIsEmpty : Bool) (r : EventResult),
      OnEvent uv persistentIsEmpty wrap filename events status = .ok r →
      r.wrap = wrap ∧ releases r.calls = 0 ∧ acquisitions r.calls = 0) ∧
    (status ≠ 0 →
      ∃ r : EventResult,
        OnEvent uv false wrap filename events status = .ok r ∧
        r.wrap.initialized_ = wrap.initialized_ ∧ releases r.calls = 0) ∧
    (∀ (persistentIsEmpty : Bool) (trace : List Effect),
      (step uv { wrap := wrap, trace := trace, fatal := none }
        (Op.OnEvent persistentIsEmpty filename events status)).wrap = wrap ∧
      releases (step uv { wrap := wrap, trace := trace, fatal := none }
        (Op.OnEvent persistentIsEmpty filename events status)).trace =
        releases trace) := by
  have h1 : ∀ (persistentIsEmpty : Bool) (r : EventResult),
      OnEvent uv persistentIsEmpty wrap filename events status = .ok r →
      r.wrap = wrap ∧ releases r.calls = 0 ∧ acquisitions r.calls = 0 := by
    intro p r h
    obtain ⟨hw, a, hc⟩ := OnEvent_ok_shape uv p wrap filename events status r h
    refine ⟨hw, ?_, ?_⟩ <;> simp [hc, releases, acquisitions]
  refine ⟨h1, ?_, ?_⟩
  · intro hs
    have h : OnEvent uv false wrap filename events status =
        .ok { wrap := wrap,
              calls := [Effect.MakeCallback onchange_sym (argv "" filename status)] } := by
      simp [OnEvent, eventStr, hs]
    exact ⟨_, h, rfl, by simp [releases]⟩
  · intro p trace
    simp only [step]
    cases hr : OnEvent uv p wrap filename events status with
    | error e => exact ⟨rfl, rfl⟩
    | ok r =>
      obtain ⟨hw, hrel, _⟩ := h1 p r hr
      exact ⟨hw, by simp [releases_append, hrel]⟩

/-- An error notification on an Active handle leaves it Active and releases
nothing. -/
theorem OnEvent_keeps_state_witness :
    (-2 : Int) ≠ 0 ∧
    ∃ r : EventResult,
      OnEvent libuv false ⟨true⟩ none 0 (-2) = .ok r ∧
      r.wrap.initialized_ = (FSEventWrap.mk true).initialized_ ∧
      releases r.calls = 0 :=
  ⟨by decide, (OnEvent_keeps_state libuv ⟨true⟩ none 0 (-2)).2.1 (by decide)⟩

/-- C17: Start does not look at the handle state. What it calls and returns is
the same for every state; on an Active handle a Start whose OS acquisition
answers nonzero returns that code and leaves the handle Active; after a
nonzero return the handle is as it was before the call; and Start changes
initialized_ only when the acquisition answers 0, and then to true. -/
theorem Start_ignores_state (uv_fs_event_init : String → Int)
    (wrap : FSEventWrap) (args : List Value) :
    (∀ other : FSEventWrap,
      (Start uv_fs_event_init other args).calls =
        (Start uv_fs_event_init wrap args).calls ∧
      (Start uv_fs_event_init other args).returnValue =
        (Start uv_fs_event_init wrap args).returnValue) ∧
    (∀ path rest, args = Value.str path :: rest → wrap.initialized_ = true →
      uv_fs_event_init path ≠ 0 →
      (Start uv_fs_event_init wrap args).returnValue = some (uv_fs_event_init path) ∧
      (Start uv_fs_event_init wrap args).wrap.initialized_ = true) ∧
    (∀ err, (Start uv_fs_event_init wrap args).returnValue = some err → err ≠ 0 →
      (Start uv_fs_event_init wrap args).wrap = wrap) ∧
    ((Start uv_fs_event_init wrap args).wrap ≠ wrap →
      (Start uv_fs_event_init wrap args).wrap.initialized_ = true ∧
      (Start uv_fs_event_init wrap args).returnValue = some 0 ∧
      (Op.Start uv_fs_event_init args).acquires = true) := by
  refine ⟨?_, ?_, ?_, ?_⟩
  · intro other
    simp only [Start]
    constructor <;> split <;> try rfl
    all_goals split <;> rfl
  · intro path rest ha hw hne
    subst ha
    simp [Start, argAt, Value.IsString, Utf8Value, hne, hw]
  · intro err
    simp only [Start, Op.acquires]
    generalize (decide (args.length < 1) || !(argAt args 0).IsString) = c
    generalize uv_fs_event_init (Utf8Value (argAt args 0)) = e
    cases c
    · by_cases he : e = 0
      · simp only [he]
        intro h1 h2
        simp at h1
        exact absurd h1.symm h2
      · simp [he]
    · simp
  · simp only [Start, Op.acquires]
    generalize (decide (args.length < 1) || !(argAt args 0).IsString) = c
    generalize uv_fs_event_init (Utf8Value (argAt args 0)) = e
    cases c
    · by_cases he : e = 0
      · simp [he]
      · simp [he]
    · simp

/-- On an Active handle a Start the OS refuses with -2 returns -2 and leaves
the handle Active. -/
theorem Start_ignores_state_witness :
    (FSEventWrap.mk true).initialized_ = true ∧ (-2 : Int) ≠ 0 ∧
    (Start (fun _ => -2) ⟨true⟩ [Value.str "/tmp/watched"]).returnValue = some (-2) ∧
    (Start (fun _ => -2) ⟨true⟩ [Value.str "/tmp/watched"]).wrap.initialized_ = true :=
  ⟨rfl, by decide,
    (Start_ignores_state (fun _ => -2) ⟨true⟩ [Value.str "/tmp/watched"]).2.1
      "/tmp/watched" [] rfl rfl (by decide)⟩

end node
